import Mathlib

/-!
Shallow embedding of the CRQ tracker single-page application
(extended variant in src/unnamed/part_000; the early variant in
src/src/app/page.tsx is embedded where a claim depends on it).
JavaScript strings are modelled as Lean String, JS `undefined` for an
optional field as Option.none, and JS objects as Lean structures.
-/

namespace Crq

/-! ## JavaScript string and truthiness primitives -/

/-- Characters removed by JS String.prototype.trim (whitespace and
line terminators). -/
def isJsSpace (c : Char) : Bool :=
  c = ' ' || c = '\t' || c = '\n' || c = '\r' ||
  c.toNat = 11 || c.toNat = 12 || c.toNat = 160 ||
  c.toNat = 8232 || c.toNat = 8233 || c.toNat = 65279

/-- Drop JS whitespace from both ends of a character list. -/
def trimChars (l : List Char) : List Char :=
  ((l.dropWhile isJsSpace).reverse.dropWhile isJsSpace).reverse

/-- JS String.prototype.trim. -/
def jsTrim (s : String) : String :=
  String.mk (trimChars s.data)

/-- JS String.prototype.toLowerCase (ASCII case folding suffices for
the data this program compares). -/
def jsToLower (s : String) : String :=
  String.mk (s.data.map Char.toLower)

/-- JS String.prototype.includes: substring containment. -/
def jsIncludes (hay nee : String) : Bool :=
  decide (nee.data <:+: hay.data)

/-- JS `x || d` for an optional string x: undefined and the empty
string are falsy, so both fall through to the default. -/
def jsOrStr (x : Option String) (d : String) : String :=
  match x with
  | none => d
  | some s => if s = "" then d else s

/-- JS `a || b` where both operands are optional strings (used for
`reviewer || crq.reviewer`): a falsy first operand yields the second. -/
def jsOrOpt (a b : Option String) : Option String :=
  match a with
  | none => b
  | some s => if s = "" then b else s

/-- JS truthiness of an optional string: defined and non-empty. -/
def optTruthy (x : Option String) : Bool :=
  match x with
  | none => false
  | some s => s ≠ ""

/-- JS Array.prototype.filter(Boolean) over strings: keep the truthy
(non-empty) entries. -/
def jsFilterTruthy (l : List String) : List String :=
  l.filter (fun s => s ≠ "")

/-- JS Array.prototype.join(sep). -/
def jsJoin (sep : String) : List String → String
  | [] => ""
  | [s] => s
  | s :: t :: rest => s ++ sep ++ jsJoin sep (t :: rest)

/-! ## Data model (the zod form schema and the CRQ record type) -/

/-- applicationChangesSchema: four boolean flags, each with an optional
version string. -/
structure ApplicationChanges where
  code : Bool
  codeVersion : Option String
  ccm : Bool
  ccmVersion : Option String
  db : Bool
  dbVersion : Option String
  akeyless : Bool
  akeylessVersion : Option String
deriving DecidableEq

/-- applicationSchema: a named application with a change set. -/
structure Application where
  name : String
  changes : ApplicationChanges
deriving DecidableEq

/-- monitoredChangeSchema: a named monitored change with two optional
monitoring references. -/
structure MonitoredChange where
  name : String
  mms : Option String
  splunk : Option String
deriving DecidableEq

/-- testResults: the fixed triple of booleans. -/
structure TestResults where
  functional : Bool
  regression : Bool
  performance : Bool
deriving DecidableEq

/-- impactAnalysis sub-record: seven optional free-text fields. -/
structure ImpactAnalysis where
  burstAreaOverall : Option String
  burstAreaTender : Option String
  possibleImpactAreas : Option String
  businessUserImpact : Option String
  impactedTeams : Option String
  instructionsSent : Option String
  teamsToNotify : Option String
deriving DecidableEq

/-- The enumerated risk level. -/
inductive Risk
  | Low
  | Medium
  | High
deriving DecidableEq

/-- The string value of a risk level (the zod enum values). -/
def Risk.toText : Risk → String
  | .Low => "Low"
  | .Medium => "Medium"
  | .High => "High"

/-- riskAssessment sub-record. -/
structure RiskAssessment where
  risk : Option Risk
  mitigationPlan : Option String
deriving DecidableEq

/-- A JS Date value, kept at the calendar-day granularity the program
observes through date-fns format strings. -/
structure JsDate where
  year : Nat
  month : Nat
  day : Nat
deriving DecidableEq

/-- Left-pad a numeral string with zeros to the given width. -/
def padZeros (width : Nat) (s : String) : String :=
  String.mk (List.replicate (width - s.length) '0') ++ s

/-- date-fns format(d, "yyyy-MM-dd"). -/
def formatYmd (d : JsDate) : String :=
  padZeros 4 (toString d.year) ++ "-" ++ padZeros 2 (toString d.month) ++
    "-" ++ padZeros 2 (toString d.day)

/-- implementationPlan sub-record. -/
structure ImplementationPlan where
  implementationStartDate : Option JsDate
  duration : Option String
  applications : List Application
deriving DecidableEq

/-- validationPlan sub-record.  The zod schema marks the whole object
optional, but generateCopySections dereferences
validationPlan.monitoredChanges unconditionally, so the embedding keeps
the object itself present (its scalar fields stay optional). -/
structure ValidationPlan where
  duration : Option String
  monitoredChanges : List MonitoredChange
  whenToRollback : Option String
deriving DecidableEq

/-- backoutPlan sub-record. -/
structure BackoutPlan where
  isTested : Bool
  changes : ApplicationChanges
  monitoredChanges : List MonitoredChange
deriving DecidableEq

/-- The workflow status (extended variant labels; the early variant
spells the third state "Rejected"). -/
inductive Status
  | Pending
  | Approved
  | Declined
  | Implemented
  | Closed
deriving DecidableEq

/-- The string value of a status (the union-of-literals type). -/
def Status.toText : Status → String
  | .Pending => "Pending"
  | .Approved => "Approved"
  | .Declined => "Declined"
  | .Implemented => "Implemented"
  | .Closed => "Closed"

/-- A custom field definition (extended variant). -/
structure CustomField where
  id : String
  label : String
  group : String
deriving DecidableEq

/-- customData: an open string-keyed record of strings; property
access on a possibly-missing key yields an optional value. -/
def lookupCustom (m : Option (List (String × String))) (k : String) :
    Option String :=
  match m with
  | none => none
  | some entries => (entries.find? (fun e => e.1 = k)).map (fun e => e.2)

/-- FormValues: the validated output of the form (formSchema).  `id` is
optional in the schema; the workflow fields are not part of the form. -/
structure FormValues where
  id : Option String
  crqNumber : Option String
  summary : String
  deploymentDiffLink : Option String
  purpose : String
  comments : Option String
  testResults : TestResults
  impactAnalysis : Option ImpactAnalysis
  riskAssessment : Option RiskAssessment
  implementationPlan : ImplementationPlan
  validationPlan : ValidationPlan
  backoutPlan : BackoutPlan
  customData : Option (List (String × String))
deriving DecidableEq

/-- CRQ = FormValues plus identity and workflow fields. -/
structure CRQ where
  id : String
  sysId : Option String
  crqNumber : Option String
  summary : String
  deploymentDiffLink : Option String
  purpose : String
  comments : Option String
  testResults : TestResults
  impactAnalysis : Option ImpactAnalysis
  riskAssessment : Option RiskAssessment
  implementationPlan : ImplementationPlan
  validationPlan : ValidationPlan
  backoutPlan : BackoutPlan
  customData : Option (List (String × String))
  status : Status
  reviewer : Option String
deriving DecidableEq

/-! ## Record store operations (extended variant, part_000) -/

/-- Object spread `{ ...editingCrq, ...data }`: every form field present
in `data` overrides the corresponding field of the existing record;
`sysId`, `status` and `reviewer` are not form fields and survive. -/
def mergeCrqForm (e : CRQ) (d : FormValues) : CRQ where
  id := d.id.getD e.id
  sysId := e.sysId
  crqNumber := d.crqNumber
  summary := d.summary
  deploymentDiffLink := d.deploymentDiffLink
  purpose := d.purpose
  comments := d.comments
  testResults := d.testResults
  impactAnalysis := d.impactAnalysis
  riskAssessment := d.riskAssessment
  implementationPlan := d.implementationPlan
  validationPlan := d.validationPlan
  backoutPlan := d.backoutPlan
  customData := d.customData
  status := e.status
  reviewer := e.reviewer

/-- handleSave, editing branch:
`{ ...editingCrq, ...data, status: "Pending", reviewer: undefined }`. -/
def savedCrqOfEdit (e : CRQ) (d : FormValues) : CRQ :=
  { mergeCrqForm e d with status := .Pending, reviewer := none }

/-- handleSave, new-record branch:
`{ ...data, id: crypto.randomUUID(), sysId: crypto.randomUUID(),
status: "Pending" }`; the fresh UUIDs are passed in explicitly. -/
def newCrqOfForm (d : FormValues) (freshId freshSysId : String) : CRQ where
  id := freshId
  sysId := some freshSysId
  crqNumber := d.crqNumber
  summary := d.summary
  deploymentDiffLink := d.deploymentDiffLink
  purpose := d.purpose
  comments := d.comments
  testResults := d.testResults
  impactAnalysis := d.impactAnalysis
  riskAssessment := d.riskAssessment
  implementationPlan := d.implementationPlan
  validationPlan := d.validationPlan
  backoutPlan := d.backoutPlan
  customData := d.customData
  status := .Pending
  reviewer := none

/-- handleSave (extended variant): returns the updated store and the
saved record (which the component also hands to the copy dialog). -/
def handleSave (crqs : List CRQ) (editingCrq : Option CRQ)
    (data : FormValues) (freshId freshSysId : String) :
    List CRQ × CRQ :=
  match editingCrq with
  | some e =>
      let savedCrq := savedCrqOfEdit e data
      (crqs.map (fun crq => if crq.id = e.id then savedCrq else crq), savedCrq)
  | none =>
      let savedCrq := newCrqOfForm data freshId freshSysId
      (crqs ++ [savedCrq], savedCrq)

/-- updateCrqStatus: overwrite status (and, when the argument is truthy,
reviewer) on every record whose id matches. -/
def updateCrqStatus (crqs : List CRQ) (id : String) (status : Status)
    (reviewer : Option String) : List CRQ :=
  crqs.map (fun crq =>
    if crq.id = id then
      { crq with status := status, reviewer := jsOrOpt reviewer crq.reviewer }
    else crq)

/-! ## Dashboard state and the reviewer-prompt flow -/

/-- The dashboard state touched by the status-transition flow. -/
structure DashState where
  crqs : List CRQ
  selectedCrqForReview : Option CRQ
  statusToSetForReview : Option Status
  reviewerName : String
  isReviewerModalOpen : Bool
deriving DecidableEq

/-- handleStatusChange: moving to Approved or Declined without a truthy
reviewer opens the reviewer prompt; otherwise the transition applies
immediately with the record's existing reviewer. -/
def handleStatusChange (s : DashState) (crq : CRQ) (status : Status) :
    DashState :=
  if (status = .Approved ∨ status = .Declined) ∧ ¬ optTruthy crq.reviewer then
    { s with selectedCrqForReview := some crq,
             statusToSetForReview := some status,
             isReviewerModalOpen := true }
  else
    { s with crqs := updateCrqStatus s.crqs crq.id status crq.reviewer }

/-- handleConfirmReview: commits the suspended transition only when a
record and a target status are selected and the typed reviewer name is
truthy; otherwise it only raises a toast and changes nothing. -/
def handleConfirmReview (s : DashState) : DashState :=
  match s.selectedCrqForReview, s.statusToSetForReview with
  | some crq, some status =>
      if s.reviewerName ≠ "" then
        { s with
            crqs := updateCrqStatus s.crqs crq.id status (some s.reviewerName),
            isReviewerModalOpen := false,
            reviewerName := "",
            selectedCrqForReview := none,
            statusToSetForReview := none }
      else s
  | _, _ => s

/-- Typing in the reviewer-name input: setReviewerName. -/
def setReviewerName (s : DashState) (n : String) : DashState :=
  { s with reviewerName := n }

/-- The prompt's Cancel action:
`setReviewerName(''); setIsReviewerModalOpen(false)`. -/
def handleCancelReview (s : DashState) : DashState :=
  { s with reviewerName := "", isReviewerModalOpen := false }

/-! ## Template generator (generateCopySections, extended variant) -/

/-- getCustomFieldsText(group, indent two spaces): one line per configured
custom field of the group whose stored value is truthy. -/
def getCustomFieldsText (crq : CRQ) (customFields : List CustomField)
    (group indent : String) : String :=
  jsJoin "\n"
    ((customFields.filter (fun f =>
        f.group = group && optTruthy (lookupCustom crq.customData f.id))).map
      (fun f => indent ++ f.label ++ ": " ++
        jsOrStr (lookupCustom crq.customData f.id) "N/A"))

/-- The Yes/No rendering of a test-result boolean. -/
def yesNoAttached (b : Bool) : String :=
  if b then "Yes - Attached on ServiceNow" else "No"

/-- descriptionText. -/
def descriptionText (crq : CRQ) (customFields : List CustomField) : String :=
  jsJoin "\n\n" (jsFilterTruthy
    [ "Release notes confluence page: \n  Attached on ServiceNow",
      "Link to Deployment Differences: \n  " ++
        jsOrStr crq.deploymentDiffLink "N/A",
      "Purpose of the change: \n  " ++ crq.purpose,
      "Comments: \n  " ++ jsOrStr crq.comments "N/A",
      "Test results: \n  " ++ jsJoin "\n  "
        [ "Functional: " ++ yesNoAttached crq.testResults.functional,
          "Regression: " ++ yesNoAttached crq.testResults.regression,
          "Performance: " ++ yesNoAttached crq.testResults.performance ],
      getCustomFieldsText crq customFields "Description" "  " ])

/-- impactCommunicationText. -/
def impactCommunicationText (crq : CRQ) (customFields : List CustomField) :
    String :=
  jsJoin "\n    " (jsFilterTruthy
    [ "Burst Area - Overall: " ++
        jsOrStr (crq.impactAnalysis.bind (fun ia => ia.burstAreaOverall)) "N/A",
      "Burst Area - Tender: " ++
        jsOrStr (crq.impactAnalysis.bind (fun ia => ia.burstAreaTender)) "N/A",
      "Possible impact areas: " ++
        jsOrStr (crq.impactAnalysis.bind (fun ia => ia.possibleImpactAreas))
          "N/A",
      "Business/User Impact: " ++
        jsOrStr (crq.impactAnalysis.bind (fun ia => ia.businessUserImpact))
          "N/A",
      "Teams impacted by this change: " ++
        jsOrStr (crq.impactAnalysis.bind (fun ia => ia.impactedTeams)) "N/A",
      "Instructions to upstream/downstream sent out: " ++
        jsOrStr (crq.impactAnalysis.bind (fun ia => ia.instructionsSent))
          "N/A",
      "Teams to be notified: " ++
        jsOrStr (crq.impactAnalysis.bind (fun ia => ia.teamsToNotify)) "N/A",
      getCustomFieldsText crq customFields "Impact Analysis & Communication"
        "" ])

/-- riskAssessmentText. -/
def riskAssessmentText (crq : CRQ) (customFields : List CustomField) :
    String :=
  jsJoin "\n    " (jsFilterTruthy
    [ "Risk: " ++
        jsOrStr ((crq.riskAssessment.bind (fun ra => ra.risk)).map Risk.toText)
          "N/A",
      "Mitigation Plan: " ++
        jsOrStr (crq.riskAssessment.bind (fun ra => ra.mitigationPlan)) "N/A",
      getCustomFieldsText crq customFields "Risk Assessment" "" ])

/-- One change line of an implementation-plan application block. -/
def releaseVersionText (flag : Bool) (version : Option String) : String :=
  if flag then "Yes - Release Version: " ++ jsOrStr version "N/A" else "No"

/-- One application block of implementationAppsText. -/
def renderApplication (app : Application) : String :=
  "  Application: " ++ app.name ++
  "\n    Changes in:\n      Code: " ++
    releaseVersionText app.changes.code app.changes.codeVersion ++
  "\n      CCM: " ++ releaseVersionText app.changes.ccm app.changes.ccmVersion ++
  "\n      DB: " ++ releaseVersionText app.changes.db app.changes.dbVersion ++
  "\n      Akeyless: " ++
    releaseVersionText app.changes.akeyless app.changes.akeylessVersion

/-- implementationAppsText. -/
def implementationAppsText (crq : CRQ) : String :=
  jsJoin "\n" (crq.implementationPlan.applications.map renderApplication)

/-- One monitored-change block (the same arrow function appears for both
validationChangesText and backoutChangesText in the source). -/
def renderMonitoredChange (change : MonitoredChange) : String :=
  "    Change: " ++ change.name ++
  "\n      Monitor:\n        MMS: " ++ jsOrStr change.mms "N/A" ++
  "\n        Splunk/Openobserve: " ++ jsOrStr change.splunk "N/A"

/-- validationChangesText. -/
def validationChangesText (crq : CRQ) : String :=
  jsJoin "\n" (crq.validationPlan.monitoredChanges.map renderMonitoredChange)

/-- backoutChangesText. -/
def backoutChangesText (crq : CRQ) : String :=
  jsJoin "\n" (crq.backoutPlan.monitoredChanges.map renderMonitoredChange)

/-- The "Implementation plan" section body (a trimmed template literal). -/
def implementationPlanText (crq : CRQ) (customFields : List CustomField) :
    String :=
  jsTrim ("\n" ++ implementationAppsText crq ++
    "\n  Playbook: Attached on ServiceNow\n" ++
    getCustomFieldsText crq customFields "Implementation Plan" "  " ++
    "\n      ")

/-- The "Validation plan" section body (a trimmed template literal). -/
def validationPlanText (crq : CRQ) (customFields : List CustomField) :
    String :=
  jsTrim ("\n  Validation Time duration: " ++
    jsOrStr crq.validationPlan.duration "N/A" ++
    "\n\n  What to monitor during and post deployment:\n" ++
    validationChangesText crq ++
    "\n\n  When to Rollback: " ++
    jsOrStr crq.validationPlan.whenToRollback "N/A" ++
    "\n  Post deployment attach the validation screenshots and close the CRQ.\n"
    ++ getCustomFieldsText crq customFields "Validation Plan" "  " ++
    "\n      ")

/-- One backout change line of the "Changes to Revert" block. -/
def previousReleaseVersionText (flag : Bool) (version : Option String) :
    String :=
  if flag then "Yes - Previous Release Version: " ++ jsOrStr version "N/A"
  else "No"

/-- The "Backout plan" section body (a trimmed template literal). -/
def backoutPlanText (crq : CRQ) (customFields : List CustomField) : String :=
  jsTrim ("\n  Is Backout plan tested?: " ++
    (if crq.backoutPlan.isTested then "Yes" else "No") ++
    "\n\n  Changes to Revert:\n    Code: " ++
    previousReleaseVersionText crq.backoutPlan.changes.code
      crq.backoutPlan.changes.codeVersion ++
    "\n    CCM: " ++
    previousReleaseVersionText crq.backoutPlan.changes.ccm
      crq.backoutPlan.changes.ccmVersion ++
    "\n    DB: " ++
    previousReleaseVersionText crq.backoutPlan.changes.db
      crq.backoutPlan.changes.dbVersion ++
    "\n    Akeyless: " ++
    previousReleaseVersionText crq.backoutPlan.changes.akeyless
      crq.backoutPlan.changes.akeylessVersion ++
    "\n\n  What to monitor during and after backout:\n" ++
    backoutChangesText crq ++ "\n" ++
    getCustomFieldsText crq customFields "Backout Plan" "  " ++
    "\n      ")

/-- generateCopySections: the ordered section-title → text mapping; a
null record yields the empty mapping.  The Impact and Risk sections are
spread in only when their bodies are truthy after trimming. -/
def generateCopySections (crq : Option CRQ)
    (customFields : List CustomField) : List (String × String) :=
  match crq with
  | none => []
  | some crq =>
      ("Summary", crq.summary) ::
      ("Description", descriptionText crq customFields) ::
      ((if jsTrim (impactCommunicationText crq customFields) ≠ "" then
          [("Impact Analysis & Communication",
            impactCommunicationText crq customFields)]
        else []) ++
       (if jsTrim (riskAssessmentText crq customFields) ≠ "" then
          [("Risk Assessment", riskAssessmentText crq customFields)]
        else []) ++
       [("Implementation plan", implementationPlanText crq customFields),
        ("Validation plan", validationPlanText crq customFields),
        ("Backout plan", backoutPlanText crq customFields)])

/-! ## Filter/view layer (filteredCrqs, extended variant) -/

/-- The six filter controls. Status and risk filters are the raw
dropdown strings compared with strict equality by the source. -/
structure Filters where
  crqNumberFilter : String
  summaryFilter : String
  statusFilter : String
  riskFilter : String
  dateFilter : Option JsDate
  reviewerFilter : String
deriving DecidableEq

/-- Source: `!crqNumberFilter || crq.crqNumber?.toLowerCase().includes(...)`. -/
def crqNumberPred (f : Filters) (crq : CRQ) : Bool :=
  f.crqNumberFilter = "" ||
    (match crq.crqNumber with
     | some s => jsIncludes (jsToLower s) (jsToLower f.crqNumberFilter)
     | none => false)

/-- Source: `!summaryFilter || crq.summary.toLowerCase().includes(...)`. -/
def summaryPred (f : Filters) (crq : CRQ) : Bool :=
  f.summaryFilter = "" ||
    jsIncludes (jsToLower crq.summary) (jsToLower f.summaryFilter)

/-- Source: statusFilter equal to the literal All, or strict equality of crq.status with statusFilter. -/
def statusPred (f : Filters) (crq : CRQ) : Bool :=
  f.statusFilter = "All" || Status.toText crq.status = f.statusFilter

/-- Source: riskFilter equal to the literal All, or strict equality of the optional risk with riskFilter
(an undefined risk never equals a concrete filter string). -/
def riskPred (f : Filters) (crq : CRQ) : Bool :=
  f.riskFilter = "All" ||
    (match crq.riskAssessment.bind (fun ra => ra.risk) with
     | some r => Risk.toText r = f.riskFilter
     | none => false)

/-- Source: `!reviewerFilter || crq.reviewer?.toLowerCase().includes(...)`. -/
def reviewerPred (f : Filters) (crq : CRQ) : Bool :=
  f.reviewerFilter = "" ||
    (match crq.reviewer with
     | some s => jsIncludes (jsToLower s) (jsToLower f.reviewerFilter)
     | none => false)

/-- The same-calendar-day date filter: records without an implementation
start date are excluded while the filter is active. -/
def datePred (f : Filters) (crq : CRQ) : Bool :=
  match f.dateFilter with
  | none => true
  | some d =>
      match crq.implementationPlan.implementationStartDate with
      | none => false
      | some cd => formatYmd cd = formatYmd d

/-- filteredCrqs: the successive .filter chain in source order
(crqNumber, summary, status, risk, reviewer, date). -/
def filteredCrqs (crqs : List CRQ) (f : Filters) : List CRQ :=
  (((((crqs.filter (crqNumberPred f)).filter (summaryPred f)).filter
      (statusPred f)).filter (riskPred f)).filter (reviewerPred f)).filter
    (datePred f)

/-- The conjunction of all six predicates, in the source's order. -/
def visiblePred (f : Filters) (crq : CRQ) : Bool :=
  crqNumberPred f crq && summaryPred f crq && statusPred f crq &&
    riskPred f crq && reviewerPred f crq && datePred f crq

/-! ## Export (handleExport, extended variant) -/

/-- DASHBOARD_COLUMNS: column ids with their human-readable labels. -/
def DASHBOARD_COLUMNS : List (String × String) :=
  [ ("crqNumber", "CRQ Number"),
    ("summary", "Summary"),
    ("risk", "Risk"),
    ("status", "Status"),
    ("implementationDate", "Implementation Date"),
    ("reviewer", "Reviewer") ]

/-- One export row: the conditionally-included labelled cells, in the
source's fixed order of `if columnsToExport.includes(...)` checks. -/
def exportRow (columnsToExport : List String) (crq : CRQ) :
    List (String × String) :=
  (if columnsToExport.contains "crqNumber" then
     [("CRQ Number", jsOrStr crq.crqNumber "N/A")]
   else []) ++
  (if columnsToExport.contains "summary" then [("Summary", crq.summary)]
   else []) ++
  (if columnsToExport.contains "risk" then
     [("Risk",
       jsOrStr ((crq.riskAssessment.bind (fun ra => ra.risk)).map Risk.toText)
         "N/A")]
   else []) ++
  (if columnsToExport.contains "status" then
     [("Status", Status.toText crq.status)]
   else []) ++
  (if columnsToExport.contains "implementationDate" then
     [("Implementation Date",
       match crq.implementationPlan.implementationStartDate with
       | some d => formatYmd d
       | none => "N/A")]
   else []) ++
  (if columnsToExport.contains "reviewer" then
     [("Reviewer", jsOrStr crq.reviewer "N/A")]
   else [])

/-- handleExport: one row per currently visible record, in order. -/
def handleExport (columnsToExport : List String) (visible : List CRQ) :
    List (List (String × String)) :=
  visible.map (exportRow columnsToExport)

/-! ## Persistence and startup load

The browser storage write is a platform call that can throw; it is
modelled as an Except value selected by a `writeFails` flag, and JSON
parsing as an arbitrary parse function passed to the load. -/

/-- The outcome of window.localStorage.setItem. -/
def setItemResult (writeFails : Bool) : Except String Unit :=
  if writeFails then Except.error "QuotaExceededError" else Except.ok ()

/-- The persist effect of useLocalStorage (extended variant): the write
sits inside try/catch, so a failure only produces a console.error log. -/
def persistStore (writeFails : Bool) (key : String) : List String :=
  match setItemResult writeFails with
  | Except.ok _ => []
  | Except.error e => ["Error setting localStorage key " ++ key ++ ": " ++ e]

/-- A form save in the extended variant together with its persistence:
setCrqs only updates memory, and the storage write happens in the
guarded useLocalStorage effect. -/
def handleSaveOp (writeFails : Bool) (crqs : List CRQ)
    (editingCrq : Option CRQ) (data : FormValues)
    (freshId freshSysId : String) :
    Except String (List CRQ × List String) :=
  Except.ok ((handleSave crqs editingCrq data freshId freshSysId).1,
    persistStore writeFails "crq_list_v3")

/-- A status transition in the extended variant together with its
persistence, guarded the same way. -/
def updateCrqStatusOp (writeFails : Bool) (crqs : List CRQ) (id : String)
    (status : Status) (reviewer : Option String) :
    Except String (List CRQ × List String) :=
  Except.ok (updateCrqStatus crqs id status reviewer,
    persistStore writeFails "crq_list_v3")

/-- The same status transition in the early variant (page.tsx), where
updateCrqStatus calls localStorage.setItem inline with no try/catch: a
write failure escapes as an exception. -/
def updateCrqStatusOpEarly (writeFails : Bool) (crqs : List CRQ)
    (id : String) (status : Status) (reviewer : Option String) :
    Except String (List CRQ) :=
  match setItemResult writeFails with
  | Except.ok _ => Except.ok (updateCrqStatus crqs id status reviewer)
  | Except.error e => Except.error e

/-- The console.error text of the useLocalStorage read effect. -/
def readErrMsg (key e : String) : String :=
  "Error reading localStorage key " ++ key ++ ": " ++ e

/-- The startup load of useLocalStorage (extended variant): the stored
item is read and JSON-parsed inside try/catch; a falsy item (absent key
or empty string) leaves the initial empty list, and a parse failure is
logged and leaves the initial empty list.  The whole effect never
throws, which the Except result records. -/
def loadCrqsOp (item : Option String)
    (jsonParse : String → Except String (List CRQ)) :
    Except String (List CRQ × List String) :=
  match item with
  | none => Except.ok ([], [])
  | some raw =>
      if raw ≠ "" then
        match jsonParse raw with
        | Except.ok parsed => Except.ok (parsed, [])
        | Except.error e =>
            Except.ok ([], [readErrMsg "crq_list_v3" e])
      else Except.ok ([], [])

/-! ## Concrete records used by witnesses and counterexamples -/

/-- A change set with all four flags off. -/
def noChanges : ApplicationChanges :=
  ⟨false, none, false, none, false, none, false, none⟩

/-- A minimal application entry. -/
def demoApplication : Application := ⟨"Application 1", noChanges⟩

/-- A minimal monitored change. -/
def demoMonitoredChange : MonitoredChange := ⟨"Change 1", none, none⟩

/-- A minimal well-formed record (one application, one monitored change
per plan, all optionals absent). -/
def baseCrq : CRQ where
  id := "id-a"
  sysId := none
  crqNumber := none
  summary := "Upgrade payment service"
  deploymentDiffLink := none
  purpose := "Routine upgrade"
  comments := none
  testResults := ⟨false, false, false⟩
  impactAnalysis := none
  riskAssessment := none
  implementationPlan := ⟨none, none, [demoApplication]⟩
  validationPlan := ⟨none, [demoMonitoredChange], none⟩
  backoutPlan := ⟨false, noChanges, [demoMonitoredChange]⟩
  customData := none
  status := .Pending
  reviewer := none

/-- A record whose summary is blank (validation normally prevents this;
the generator is a plain function of the record). -/
def blankSummaryCrq : CRQ := { baseCrq with summary := "" }

/-- The claim C4 example record {status: Pending, risk: Low}. -/
def pendingLowCrq : CRQ :=
  { baseCrq with id := "id-1", status := .Pending,
                 riskAssessment := some ⟨some .Low, none⟩ }

/-- The claim C4 example record {status: Approved, risk: High}. -/
def approvedHighCrq : CRQ :=
  { baseCrq with id := "id-2", status := .Approved,
                 riskAssessment := some ⟨some .High, none⟩ }

/-- All six filter controls inactive. -/
def noFilters : Filters := ⟨"", "", "All", "All", none, ""⟩

/-- The form values corresponding to baseCrq (as resubmitted unchanged
from the edit form). -/
def demoFormValues : FormValues where
  id := some "id-a"
  crqNumber := none
  summary := "Upgrade payment service"
  deploymentDiffLink := none
  purpose := "Routine upgrade"
  comments := none
  testResults := ⟨false, false, false⟩
  impactAnalysis := none
  riskAssessment := none
  implementationPlan := ⟨none, none, [demoApplication]⟩
  validationPlan := ⟨none, [demoMonitoredChange], none⟩
  backoutPlan := ⟨false, noChanges, [demoMonitoredChange]⟩
  customData := none

/-- A record that already carries a reviewer and an Approved status. -/
def approvedReviewedCrq : CRQ :=
  { baseCrq with id := "id-b", status := .Approved,
                 reviewer := some "Dana" }

/-- A dashboard state holding the two demo records with no prompt open. -/
def demoState : DashState :=
  ⟨[baseCrq, approvedReviewedCrq], none, none, "", false⟩

/-! ## Lemmas about the JS string primitives -/

theorem mem_dropWhile_of_not {p : Char → Bool} {c : Char} {l : List Char}
    (hc : p c = false) (h : c ∈ l) : c ∈ l.dropWhile p := by
  induction l with
  | nil => cases h
  | cons a t ih =>
      rw [List.dropWhile_cons]
      by_cases ha : p a = true
      · rw [if_pos ha]
        rcases List.mem_cons.mp h with h1 | h1
        · subst h1; rw [hc] at ha; exact absurd ha (by simp)
        · exact ih h1
      · rw [if_neg ha]; exact h

theorem mem_trimChars {c : Char} {l : List Char}
    (h : c ∈ l) (hc : isJsSpace c = false) : c ∈ trimChars l := by
  unfold trimChars
  exact List.mem_reverse.mpr
    (mem_dropWhile_of_not hc (List.mem_reverse.mpr (mem_dropWhile_of_not hc h)))

theorem jsTrim_ne_empty_of_mem {c : Char} {s : String}
    (h : c ∈ s.data) (hc : isJsSpace c = false) : jsTrim s ≠ "" := by
  intro he
  exact List.ne_nil_of_mem (mem_trimChars h hc) (congrArg String.data he)

theorem str_ne_empty_of_mem {c : Char} {s : String} (h : c ∈ s.data) :
    s ≠ "" := by
  intro he; rw [he] at h; simp at h

theorem infix_dropWhile {c : Char} {t s : List Char}
    (hc : isJsSpace c = false) (h : (c :: t) <:+: s) :
    (c :: t) <:+: s.dropWhile isJsSpace := by
  obtain ⟨pre, post, rfl⟩ := h
  induction pre with
  | nil =>
      simp only [List.nil_append, List.cons_append, List.dropWhile_cons, hc]
      exact ⟨[], post, by simp⟩
  | cons x pre ih =>
      have hshape : (x :: pre) ++ (c :: t) ++ post
          = x :: (pre ++ (c :: t) ++ post) := by
        simp [List.append_assoc]
      rw [hshape, List.dropWhile_cons]
      by_cases hx : isJsSpace x = true
      · rw [if_pos hx]
        have := ih
        rw [List.append_assoc] at this ⊢
        exact this
      · rw [if_neg hx]
        exact ⟨x :: pre, post, by simp [List.append_assoc]⟩

/-- The first character, if any, is not JS whitespace (decidably). -/
def headNotSpace (l : List Char) : Bool :=
  match l with
  | [] => true
  | c :: _ => !isJsSpace c

/-- The last character, if any, is not JS whitespace (decidably). -/
def lastNotSpace (l : List Char) : Bool :=
  headNotSpace l.reverse

theorem infix_trimChars {t s : List Char}
    (hh : headNotSpace t = true) (hl : lastNotSpace t = true)
    (h : t <:+: s) : t <:+: trimChars s := by
  cases t with
  | nil => exact List.nil_infix
  | cons c t' =>
      have hc : isJsSpace c = false := by
        simpa [headNotSpace] using hh
      have step1 : (c :: t') <:+: s.dropWhile isJsSpace :=
        infix_dropWhile hc h
      have step2 : (c :: t').reverse <:+: (s.dropWhile isJsSpace).reverse :=
        List.reverse_infix.mpr step1
      obtain ⟨d, r, hr⟩ : ∃ d r, (c :: t').reverse = d :: r := by
        cases hrev : (c :: t').reverse with
        | nil => exact absurd (congrArg List.length hrev) (by simp)
        | cons d r => exact ⟨d, r, rfl⟩
      have hd : isJsSpace d = false := by
        have hl' := hl
        unfold lastNotSpace at hl'
        rw [hr] at hl'
        simpa [headNotSpace] using hl'
      rw [hr] at step2
      have step4 := List.reverse_infix.mpr (infix_dropWhile hd step2)
      rw [← hr, List.reverse_reverse] at step4
      exact step4

theorem infix_jsTrim {t s : String}
    (hh : headNotSpace t.data = true) (hl : lastNotSpace t.data = true)
    (h : t.data <:+: s.data) : t.data <:+: (jsTrim s).data :=
  infix_trimChars hh hl h

theorem jsJoin_cons_data (sep x : String) (rest : List String) :
    ∃ u, (jsJoin sep (x :: rest)).data = x.data ++ u := by
  cases rest with
  | nil => exact ⟨[], by simp [jsJoin]⟩
  | cons y r =>
      exact ⟨sep.data ++ (jsJoin sep (y :: r)).data,
        by simp [jsJoin, String.data_append, List.append_assoc]⟩

theorem infix_of_mem_jsJoin {x : String} {l : List String} (sep : String)
    (h : x ∈ l) : x.data <:+: (jsJoin sep l).data := by
  induction l with
  | nil => cases h
  | cons y rest ih =>
      rcases List.mem_cons.mp h with h1 | h1
      · subst h1
        obtain ⟨u, hu⟩ := jsJoin_cons_data sep x rest
        exact ⟨[], u, by simp [hu]⟩
      · cases rest with
        | nil => cases h1
        | cons z r =>
            have hx := ih h1
            have hshape : (jsJoin sep (y :: z :: r)).data
                = (y.data ++ sep.data) ++ (jsJoin sep (z :: r)).data := by
              simp [jsJoin, String.data_append, List.append_assoc]
            rw [hshape]
            obtain ⟨u, v, huv⟩ := hx
            exact ⟨(y.data ++ sep.data) ++ u, v,
              by rw [← huv]; simp [List.append_assoc]⟩

theorem infix_append_right_of {α : Type} {t b : List α} (a : List α)
    (h : t <:+: b) : t <:+: a ++ b := by
  obtain ⟨u, v, rfl⟩ := h
  exact ⟨a ++ u, v, by simp [List.append_assoc]⟩

theorem infix_append_left_of {α : Type} {t a : List α} (b : List α)
    (h : t <:+: a) : t <:+: a ++ b := by
  obtain ⟨u, v, rfl⟩ := h
  exact ⟨u, v ++ b, by simp [List.append_assoc]⟩

theorem infix_of_suffix_append {α : Type} {a b : List α} (x : List α)
    (h : a <:+ b) : (a ++ x) <:+: (b ++ x) := by
  obtain ⟨w, rfl⟩ := h
  exact ⟨w, [], by simp⟩

theorem mem_jsFilterTruthy {x : String} {l : List String}
    (h : x ∈ l) (hx : x ≠ "") : x ∈ jsFilterTruthy l :=
  List.mem_filter.mpr ⟨h, by simp [hx]⟩

theorem infix_of_mem_filterJoin {x : String} {l : List String} (sep : String)
    (h : x ∈ l) (hx : x ≠ "") :
    x.data <:+: (jsJoin sep (jsFilterTruthy l)).data :=
  infix_of_mem_jsJoin sep (mem_jsFilterTruthy h hx)

/-! ## Helper lemmas about the store operations -/

/-- Agreement of two records on every field other than status and
reviewer. -/
def eqExceptStatusReviewer (a b : CRQ) : Prop :=
  a.id = b.id ∧ a.sysId = b.sysId ∧ a.crqNumber = b.crqNumber ∧
  a.summary = b.summary ∧ a.deploymentDiffLink = b.deploymentDiffLink ∧
  a.purpose = b.purpose ∧ a.comments = b.comments ∧
  a.testResults = b.testResults ∧ a.impactAnalysis = b.impactAnalysis ∧
  a.riskAssessment = b.riskAssessment ∧
  a.implementationPlan = b.implementationPlan ∧
  a.validationPlan = b.validationPlan ∧ a.backoutPlan = b.backoutPlan ∧
  a.customData = b.customData

theorem optTruthy_jsOrOpt (a b : Option String)
    (hb : optTruthy b = true) : optTruthy (jsOrOpt a b) = true := by
  cases a with
  | none => exact hb
  | some s =>
      by_cases hs : s = ""
      · simpa [jsOrOpt, hs] using hb
      · simp [jsOrOpt, hs, optTruthy]

theorem filteredCrqs_eq_visible (crqs : List CRQ) (f : Filters) :
    filteredCrqs crqs f = crqs.filter (visiblePred f) := by
  unfold filteredCrqs visiblePred
  simp only [List.filter_filter]
  congr 1
  funext c
  cases h1 : crqNumberPred f c <;> cases h2 : summaryPred f c <;>
    cases h3 : statusPred f c <;> cases h4 : riskPred f c <;>
    cases h5 : reviewerPred f c <;> cases h6 : datePred f c <;> rfl

/-! ## Claim theorems -/

/-- Claim C1: for a Pending record with no reviewer, requesting a
transition to Approved or Declined only opens the reviewer prompt; the
store is unmodified by the request, by typing into the prompt, by
confirming with an empty name, and by cancelling; only a confirmation
with a non-empty name commits the transition. -/
theorem pendingTransition_no_store_mutation (s : DashState) (crq : CRQ)
    (st : Status) (hp : crq.status = .Pending) (hr : crq.reviewer = none)
    (hst : st = .Approved ∨ st = .Declined) :
    (handleStatusChange s crq st).crqs = s.crqs
    ∧ (handleStatusChange s crq st).isReviewerModalOpen = true
    ∧ (∀ n, (setReviewerName (handleStatusChange s crq st) n).crqs = s.crqs)
    ∧ (handleConfirmReview
        (setReviewerName (handleStatusChange s crq st) "")).crqs = s.crqs
    ∧ (handleCancelReview (handleStatusChange s crq st)).crqs = s.crqs
    ∧ (∀ n, n ≠ "" →
        (handleConfirmReview
          (setReviewerName (handleStatusChange s crq st) n)).crqs
          = updateCrqStatus s.crqs crq.id st (some n)) := by
  have hmodal : handleStatusChange s crq st
      = { s with selectedCrqForReview := some crq,
                 statusToSetForReview := some st,
                 isReviewerModalOpen := true } := by
    unfold handleStatusChange
    rw [if_pos]
    exact ⟨hst, by simp [optTruthy, hr]⟩
  refine ⟨by rw [hmodal], by rw [hmodal], ?_, ?_, ?_, ?_⟩
  · intro n; rw [hmodal]; rfl
  · rw [hmodal]; simp [handleConfirmReview, setReviewerName]
  · rw [hmodal]; rfl
  · intro n hn; rw [hmodal]; simp [handleConfirmReview, setReviewerName, hn]

/-- Witness for C1 at a concrete dashboard state. -/
theorem pendingTransition_no_store_mutation_witness :
    (handleStatusChange demoState baseCrq .Approved).crqs = demoState.crqs :=
  (pendingTransition_no_store_mutation demoState baseCrq .Approved rfl rfl
    (Or.inl rfl)).1

/-- Claim C2: in the extended variant, saving an edit of an existing
record stores a record whose status is Pending and whose reviewer is
absent, whatever the prior status and reviewer were. -/
theorem handleSave_edit_resets (crqs : List CRQ) (e : CRQ) (d : FormValues)
    (fid fsid : String) :
    (handleSave crqs (some e) d fid fsid).2.status = .Pending
    ∧ (handleSave crqs (some e) d fid fsid).2.reviewer = none
    ∧ (handleSave crqs (some e) d fid fsid).1.length = crqs.length
    ∧ (∀ i (h : i < crqs.length), crqs[i].id = e.id →
        (handleSave crqs (some e) d fid fsid).1[i]?
          = some (handleSave crqs (some e) d fid fsid).2)
    ∧ (e ∈ crqs →
        (handleSave crqs (some e) d fid fsid).2
          ∈ (handleSave crqs (some e) d fid fsid).1) := by
  refine ⟨rfl, rfl, by simp [handleSave], ?_, ?_⟩
  · intro i h hid
    simp [handleSave, List.getElem?_map, List.getElem?_eq_getElem h, hid]
  · intro he
    have := List.mem_map_of_mem
      (fun crq => if crq.id = e.id then savedCrqOfEdit e d else crq) he
    simpa [handleSave] using this

/-- Witness for C2: resubmitting the demo record through the edit
branch. -/
theorem handleSave_edit_resets_witness :
    (handleSave [approvedReviewedCrq] (some approvedReviewedCrq)
      demoFormValues "f" "g").2.status = .Pending
    ∧ (handleSave [approvedReviewedCrq] (some approvedReviewedCrq)
        demoFormValues "f" "g").2.reviewer = none
    ∧ (handleSave [approvedReviewedCrq] (some approvedReviewedCrq)
        demoFormValues "f" "g").2
        ∈ (handleSave [approvedReviewedCrq] (some approvedReviewedCrq)
            demoFormValues "f" "g").1 := by
  have h := handleSave_edit_resets [approvedReviewedCrq] approvedReviewedCrq
    demoFormValues "f" "g"
  exact ⟨h.1, h.2.1, h.2.2.2.2 (by decide)⟩

/-- Claim C4: the visible set is the store filtered by the conjunction
of the six predicates, and on the two-record example a status filter of
Approved keeps exactly the second record while adding a Low risk filter
empties the result. -/
theorem filteredCrqs_conjunction_and_examples :
    (∀ crqs f, filteredCrqs crqs f = crqs.filter (visiblePred f))
    ∧ filteredCrqs [pendingLowCrq, approvedHighCrq]
        { noFilters with statusFilter := "Approved" } = [approvedHighCrq]
    ∧ filteredCrqs [pendingLowCrq, approvedHighCrq]
        { noFilters with statusFilter := "Approved", riskFilter := "Low" }
        = [] :=
  ⟨filteredCrqs_eq_visible, by decide, by decide⟩

/-- Claim C5: a status update rewrites only the status and reviewer of
records with the matching id, leaves every other record untouched, and
is the identity when no id matches. -/
theorem updateCrqStatus_frame (crqs : List CRQ) (id : String) (st : Status)
    (rev : Option String) :
    (updateCrqStatus crqs id st rev).length = crqs.length
    ∧ (∀ i (h : i < crqs.length), crqs[i].id ≠ id →
        (updateCrqStatus crqs id st rev)[i]? = some crqs[i])
    ∧ (∀ i (h : i < crqs.length), crqs[i].id = id →
        ∃ c', (updateCrqStatus crqs id st rev)[i]? = some c'
          ∧ eqExceptStatusReviewer crqs[i] c')
    ∧ ((∀ c ∈ crqs, c.id ≠ id) → updateCrqStatus crqs id st rev = crqs) := by
  refine ⟨by simp [updateCrqStatus], ?_, ?_, ?_⟩
  · intro i h hne
    simp [updateCrqStatus, List.getElem?_map, List.getElem?_eq_getElem h, hne]
  · intro i h hid
    refine ⟨{ (crqs[i]) with status := st, reviewer := jsOrOpt rev (crqs[i]).reviewer }, ?_, ?_⟩
    · simp [updateCrqStatus, List.getElem?_map, List.getElem?_eq_getElem h,
        hid]
    · exact ⟨rfl, rfl, rfl, rfl, rfl, rfl, rfl, rfl, rfl, rfl, rfl, rfl,
        rfl, rfl⟩
  · intro hnone
    unfold updateCrqStatus
    rw [List.map_congr_left (fun c hc => if_neg (hnone c hc))]
    exact List.map_id crqs

/-- Witness for C5 on a two-record store. -/
theorem updateCrqStatus_frame_witness :
    (updateCrqStatus [baseCrq, approvedReviewedCrq] "id-b" .Implemented
      none)[0]? = some baseCrq := by
  have h := updateCrqStatus_frame [baseCrq, approvedReviewedCrq] "id-b"
    .Implemented none
  exact h.2.1 0 (by decide) (by decide)

/-- Claim C8: the template generator is a deterministic function of the
record and the custom-field set alone. -/
theorem generateCopySections_deterministic (crq crq' : Option CRQ)
    (cf cf' : List CustomField) (h1 : crq = crq') (h2 : cf = cf') :
    generateCopySections crq cf = generateCopySections crq' cf' := by
  subst h1; subst h2; rfl

/-- Witness for C8 at the demo record. -/
theorem generateCopySections_deterministic_witness :
    generateCopySections (some baseCrq) [] =
      generateCopySections (some baseCrq) [] :=
  generateCopySections_deterministic (some baseCrq) (some baseCrq) [] []
    rfl rfl

/-- Claim C9: the export has one row per visible record in order, every
row's keys are exactly the labels of the selected columns, and with
columns summary and status each row is exactly those two cells. -/
theorem handleExport_rows (cols : List String) (visible : List CRQ) :
    (handleExport cols visible).length = visible.length
    ∧ (∀ i (h : i < visible.length),
        (handleExport cols visible)[i]? = some (exportRow cols visible[i]))
    ∧ (∀ crq, (exportRow cols crq).map Prod.fst
        = (DASHBOARD_COLUMNS.filter (fun c => cols.contains c.1)).map
            Prod.snd)
    ∧ (∀ crq, exportRow ["summary", "status"] crq
        = [("Summary", crq.summary), ("Status", Status.toText crq.status)])
    := by
  refine ⟨by simp [handleExport], ?_, ?_, ?_⟩
  · intro i h
    simp [handleExport, List.getElem?_map, List.getElem?_eq_getElem h]
  · intro crq
    by_cases hc1 : "crqNumber" ∈ cols <;>
      by_cases hc2 : "summary" ∈ cols <;>
      by_cases hc3 : "risk" ∈ cols <;>
      by_cases hc4 : "status" ∈ cols <;>
      by_cases hc5 : "implementationDate" ∈ cols <;>
      by_cases hc6 : "reviewer" ∈ cols <;>
      simp [exportRow, DASHBOARD_COLUMNS, List.filter_cons, hc1, hc2, hc3,
        hc4, hc5, hc6]
  · intro crq
    rfl

/-- Witness for C9 on the demo visible set. -/
theorem handleExport_rows_witness :
    (handleExport ["summary", "status"] [approvedHighCrq])[0]?
      = some (exportRow ["summary", "status"] approvedHighCrq) := by
  have h := handleExport_rows ["summary", "status"] [approvedHighCrq]
  exact h.2.1 0 (by decide)

/-- Claim C10: a status update never clears a reviewer: a falsy reviewer
argument leaves every record's reviewer unchanged, and a truthy stored
reviewer stays truthy through any transition. -/
theorem updateCrqStatus_keeps_reviewer (crqs : List CRQ) (id : String)
    (st : Status) (rev : Option String) :
    ((rev = none ∨ rev = some "") →
      (updateCrqStatus crqs id st rev).map (fun c => c.reviewer)
        = crqs.map (fun c => c.reviewer))
    ∧ (∀ i (h : i < crqs.length), optTruthy crqs[i].reviewer = true →
        ∃ c', (updateCrqStatus crqs id st rev)[i]? = some c'
          ∧ optTruthy c'.reviewer = true) := by
  constructor
  · intro hrev
    unfold updateCrqStatus
    rw [List.map_map]
    apply List.map_congr_left
    intro c _
    by_cases hc : c.id = id
    · rcases hrev with h | h <;> subst h <;> simp [hc, jsOrOpt]
    · simp [hc]
  · intro i h htruthy
    by_cases hc : crqs[i].id = id
    · refine ⟨{ (crqs[i]) with status := st, reviewer := jsOrOpt rev (crqs[i]).reviewer }, ?_, ?_⟩
      · simp [updateCrqStatus, List.getElem?_map,
          List.getElem?_eq_getElem h, hc]
      · exact optTruthy_jsOrOpt rev _ htruthy
    · refine ⟨crqs[i], ?_, htruthy⟩
      simp [updateCrqStatus, List.getElem?_map, List.getElem?_eq_getElem h,
        hc]

/-- Witness for C10: an Implemented transition with no reviewer argument
keeps the stored reviewer. -/
theorem updateCrqStatus_keeps_reviewer_witness :
    (updateCrqStatus [approvedReviewedCrq] "id-b" .Implemented none).map
      (fun c => c.reviewer) = [approvedReviewedCrq].map (fun c => c.reviewer)
    := by
  have h := updateCrqStatus_keeps_reviewer [approvedReviewedCrq] "id-b"
    .Implemented none
  exact h.1 (Or.inl rfl)

/-- Claim C7: the startup load never throws, yields the empty store when
the key is absent (or holds the falsy empty string), and on a JSON parse
failure logs the error and yields the empty store. -/
theorem loadCrqsOp_total_empty_on_failure
    (jsonParse : String → Except String (List CRQ)) :
    (∀ item, ∃ r, loadCrqsOp item jsonParse = Except.ok r)
    ∧ loadCrqsOp none jsonParse = Except.ok ([], [])
    ∧ loadCrqsOp (some "") jsonParse = Except.ok ([], [])
    ∧ (∀ raw e, raw ≠ "" → jsonParse raw = Except.error e →
        loadCrqsOp (some raw) jsonParse
          = Except.ok ([], [readErrMsg "crq_list_v3" e])) := by
  refine ⟨?_, rfl, by simp [loadCrqsOp], ?_⟩
  · intro item
    cases item with
    | none => exact ⟨([], []), rfl⟩
    | some raw =>
        by_cases hraw : raw = ""
        · subst hraw; exact ⟨([], []), by simp [loadCrqsOp]⟩
        · cases hp : jsonParse raw with
          | ok v => exact ⟨(v, []), by simp [loadCrqsOp, hraw, hp]⟩
          | error e =>
              exact ⟨([], [readErrMsg "crq_list_v3" e]),
                by simp [loadCrqsOp, hraw, hp]⟩
  · intro raw e hraw hp
    simp [loadCrqsOp, hraw, hp]

/-- Witness for C7 with a parse function that always fails. -/
theorem loadCrqsOp_total_empty_on_failure_witness :
    loadCrqsOp (some "not json")
      (fun _ => Except.error "Unexpected token")
      = Except.ok ([], [readErrMsg "crq_list_v3" "Unexpected token"]) := by
  have h := loadCrqsOp_total_empty_on_failure
    (fun _ => Except.error "Unexpected token")
  exact h.2.2.2 "not json" "Unexpected token" (by decide) rfl

/-! ## Support lemmas for the template-generator claims -/

/-- The titled section is in the mapping and its body contains the
target text. -/
def sectionHas (secs : List (String × String)) (title target : String) :
    Prop :=
  ∃ body, (title, body) ∈ secs ∧ target.data <:+: body.data

theorem first_item_trim_ne {c : Char} {x : String} {l : List String}
    {sep : String} (hc : c ∈ x.data) (hsp : isJsSpace c = false)
    (hx : x ∈ l) : jsTrim (jsJoin sep (jsFilterTruthy l)) ≠ "" := by
  have hinf := infix_of_mem_filterJoin sep hx (str_ne_empty_of_mem hc)
  exact jsTrim_ne_empty_of_mem (hinf.subset hc) hsp

theorem jsTrim_jsTrim_ne {c : Char} {s : String} (hc : c ∈ s.data)
    (hsp : isJsSpace c = false) : jsTrim (jsTrim s) ≠ "" :=
  jsTrim_ne_empty_of_mem (mem_trimChars hc hsp) hsp

theorem infix_of_eq_append {α : Type} {s pre mid post t : List α}
    (hs : s = pre ++ mid ++ post) (h : t <:+: mid) : t <:+: s := by
  subst hs
  exact infix_append_left_of post (infix_append_right_of pre h)

theorem descriptionText_trim_ne (crq : CRQ) (cf : List CustomField) :
    jsTrim (descriptionText crq cf) ≠ "" := by
  unfold descriptionText
  refine first_item_trim_ne (c := 'R')
    (x := "Release notes confluence page: \n  Attached on ServiceNow")
    (by decide) (by decide) (by simp)

theorem impactText_trim_ne (crq : CRQ) (cf : List CustomField) :
    jsTrim (impactCommunicationText crq cf) ≠ "" := by
  unfold impactCommunicationText
  refine first_item_trim_ne (c := 'B')
    (x := "Burst Area - Overall: " ++
      jsOrStr (crq.impactAnalysis.bind (fun ia => ia.burstAreaOverall)) "N/A")
    ?_ (by decide) (by simp)
  rw [String.data_append]
  exact List.mem_append_left _ (by decide)

theorem riskText_trim_ne (crq : CRQ) (cf : List CustomField) :
    jsTrim (riskAssessmentText crq cf) ≠ "" := by
  unfold riskAssessmentText
  refine first_item_trim_ne (c := 'R')
    (x := "Risk: " ++
      jsOrStr ((crq.riskAssessment.bind (fun ra => ra.risk)).map Risk.toText)
        "N/A")
    ?_ (by decide) (by simp)
  rw [String.data_append]
  exact List.mem_append_left _ (by decide)

theorem implText_trim_ne (crq : CRQ) (cf : List CustomField) :
    jsTrim (implementationPlanText crq cf) ≠ "" := by
  unfold implementationPlanText
  refine jsTrim_jsTrim_ne (c := 'P') ?_ (by decide)
  simp only [String.data_append]
  exact List.mem_append_left _
    (List.mem_append_left _ (List.mem_append_right _ (by decide)))

theorem valText_trim_ne (crq : CRQ) (cf : List CustomField) :
    jsTrim (validationPlanText crq cf) ≠ "" := by
  unfold validationPlanText
  refine jsTrim_jsTrim_ne (c := 'V') ?_ (by decide)
  simp only [String.data_append]
  repeat refine List.mem_append_left _ ?_
  decide

theorem backText_trim_ne (crq : CRQ) (cf : List CustomField) :
    jsTrim (backoutPlanText crq cf) ≠ "" := by
  unfold backoutPlanText
  refine jsTrim_jsTrim_ne (c := 'I') ?_ (by decide)
  simp only [String.data_append]
  repeat refine List.mem_append_left _ ?_
  decide

theorem description_mem (crq : CRQ) (cf : List CustomField) :
    ("Description", descriptionText crq cf)
      ∈ generateCopySections (some crq) cf := by
  unfold generateCopySections
  exact List.mem_cons_of_mem _ (List.mem_cons_self _ _)

theorem impact_mem (crq : CRQ) (cf : List CustomField) :
    ("Impact Analysis & Communication", impactCommunicationText crq cf)
      ∈ generateCopySections (some crq) cf := by
  unfold generateCopySections
  refine List.mem_cons_of_mem _ (List.mem_cons_of_mem _ ?_)
  refine List.mem_append_left _ (List.mem_append_left _ ?_)
  rw [if_pos (impactText_trim_ne crq cf)]
  exact List.mem_cons_self _ _

theorem risk_mem (crq : CRQ) (cf : List CustomField) :
    ("Risk Assessment", riskAssessmentText crq cf)
      ∈ generateCopySections (some crq) cf := by
  unfold generateCopySections
  refine List.mem_cons_of_mem _ (List.mem_cons_of_mem _ ?_)
  refine List.mem_append_left _ (List.mem_append_right _ ?_)
  rw [if_pos (riskText_trim_ne crq cf)]
  exact List.mem_cons_self _ _

theorem implementation_mem (crq : CRQ) (cf : List CustomField) :
    ("Implementation plan", implementationPlanText crq cf)
      ∈ generateCopySections (some crq) cf := by
  unfold generateCopySections
  refine List.mem_cons_of_mem _ (List.mem_cons_of_mem _ ?_)
  refine List.mem_append_right _ ?_
  exact List.mem_cons_self _ _

theorem validation_mem (crq : CRQ) (cf : List CustomField) :
    ("Validation plan", validationPlanText crq cf)
      ∈ generateCopySections (some crq) cf := by
  unfold generateCopySections
  refine List.mem_cons_of_mem _ (List.mem_cons_of_mem _ ?_)
  refine List.mem_append_right _ ?_
  exact List.mem_cons_of_mem _ (List.mem_cons_self _ _)

theorem backout_mem (crq : CRQ) (cf : List CustomField) :
    ("Backout plan", backoutPlanText crq cf)
      ∈ generateCopySections (some crq) cf := by
  unfold generateCopySections
  refine List.mem_cons_of_mem _ (List.mem_cons_of_mem _ ?_)
  refine List.mem_append_right _ ?_
  exact List.mem_cons_of_mem _ (List.mem_cons_of_mem _ (List.mem_cons_self _ _))

theorem infix_glue {α : Type} {t lit x : List α} (A : List α)
    (h : t <:+ lit) : (t ++ x) <:+: ((A ++ lit) ++ x) := by
  obtain ⟨w, rfl⟩ := h
  exact ⟨A ++ w, [], by simp [List.append_assoc]⟩

theorem infix_code_line (app : Application) :
    ("Code: " ++ releaseVersionText app.changes.code
      app.changes.codeVersion).data <:+: (renderApplication app).data := by
  unfold renderApplication
  simp only [String.data_append]
  iterate 6 refine infix_append_left_of _ ?_
  exact infix_glue _ (by decide)

theorem infix_ccm_line (app : Application) :
    ("CCM: " ++ releaseVersionText app.changes.ccm
      app.changes.ccmVersion).data <:+: (renderApplication app).data := by
  unfold renderApplication
  simp only [String.data_append]
  iterate 4 refine infix_append_left_of _ ?_
  exact infix_glue _ (by decide)

theorem infix_db_line (app : Application) :
    ("DB: " ++ releaseVersionText app.changes.db
      app.changes.dbVersion).data <:+: (renderApplication app).data := by
  unfold renderApplication
  simp only [String.data_append]
  iterate 2 refine infix_append_left_of _ ?_
  exact infix_glue _ (by decide)

theorem infix_akeyless_line (app : Application) :
    ("Akeyless: " ++ releaseVersionText app.changes.akeyless
      app.changes.akeylessVersion).data <:+: (renderApplication app).data := by
  unfold renderApplication
  simp only [String.data_append]
  exact infix_glue _ (by decide)

theorem infix_mms_line (mc : MonitoredChange) :
    ("MMS: " ++ jsOrStr mc.mms "N/A").data
      <:+: (renderMonitoredChange mc).data := by
  unfold renderMonitoredChange
  simp only [String.data_append]
  iterate 2 refine infix_append_left_of _ ?_
  exact infix_glue _ (by decide)

theorem infix_splunk_line (mc : MonitoredChange) :
    ("Splunk/Openobserve: " ++ jsOrStr mc.splunk "N/A").data
      <:+: (renderMonitoredChange mc).data := by
  unfold renderMonitoredChange
  simp only [String.data_append]
  exact infix_glue _ (by decide)

theorem infix_implementationPlanText (crq : CRQ) (cf : List CustomField)
    {t : String} {app : Application}
    (happ : app ∈ crq.implementationPlan.applications)
    (ht : t.data <:+: (renderApplication app).data)
    (hh : headNotSpace t.data = true) (hl : lastNotSpace t.data = true) :
    t.data <:+: (implementationPlanText crq cf).data := by
  unfold implementationPlanText
  apply infix_jsTrim hh hl
  simp only [String.data_append]
  iterate 3 refine infix_append_left_of _ ?_
  refine infix_append_right_of _ ?_
  exact ht.trans (infix_of_mem_jsJoin _ (List.mem_map_of_mem _ happ))

theorem infix_validationPlanText_mc (crq : CRQ) (cf : List CustomField)
    {t : String} {mc : MonitoredChange}
    (hmc : mc ∈ crq.validationPlan.monitoredChanges)
    (ht : t.data <:+: (renderMonitoredChange mc).data)
    (hh : headNotSpace t.data = true) (hl : lastNotSpace t.data = true) :
    t.data <:+: (validationPlanText crq cf).data := by
  unfold validationPlanText
  apply infix_jsTrim hh hl
  simp only [String.data_append]
  iterate 5 refine infix_append_left_of _ ?_
  refine infix_append_right_of _ ?_
  exact ht.trans (infix_of_mem_jsJoin _ (List.mem_map_of_mem _ hmc))

theorem infix_backoutPlanText_mc (crq : CRQ) (cf : List CustomField)
    {t : String} {mc : MonitoredChange}
    (hmc : mc ∈ crq.backoutPlan.monitoredChanges)
    (ht : t.data <:+: (renderMonitoredChange mc).data)
    (hh : headNotSpace t.data = true) (hl : lastNotSpace t.data = true) :
    t.data <:+: (backoutPlanText crq cf).data := by
  unfold backoutPlanText
  apply infix_jsTrim hh hl
  simp only [String.data_append]
  iterate 3 refine infix_append_left_of _ ?_
  refine infix_append_right_of _ ?_
  exact ht.trans (infix_of_mem_jsJoin _ (List.mem_map_of_mem _ hmc))

theorem duration_line_in_valText (crq : CRQ) (cf : List CustomField)
    (h : crq.validationPlan.duration = none) :
    ("Validation Time duration: N/A" : String).data
      <:+: (validationPlanText crq cf).data := by
  unfold validationPlanText
  rw [h]
  rw [show ("Validation Time duration: N/A" : String)
      = "Validation Time duration: " ++ jsOrStr none "N/A" from by decide]
  apply infix_jsTrim (by decide) (by decide)
  simp only [String.data_append]
  iterate 7 refine infix_append_left_of _ ?_
  exact infix_of_suffix_append _ (by decide)

theorem rollback_line_in_valText (crq : CRQ) (cf : List CustomField)
    (h : crq.validationPlan.whenToRollback = none) :
    ("When to Rollback: N/A" : String).data
      <:+: (validationPlanText crq cf).data := by
  unfold validationPlanText
  rw [h]
  rw [show ("When to Rollback: N/A" : String)
      = "When to Rollback: " ++ jsOrStr none "N/A" from by decide]
  apply infix_jsTrim (by decide) (by decide)
  simp only [String.data_append]
  iterate 3 refine infix_append_left_of _ ?_
  exact infix_glue _ (by decide)

theorem isTested_line_in_backText (crq : CRQ) (cf : List CustomField) :
    ("Is Backout plan tested?: " ++
      (if crq.backoutPlan.isTested then "Yes" else "No") : String).data
      <:+: (backoutPlanText crq cf).data := by
  unfold backoutPlanText
  cases hb : crq.backoutPlan.isTested <;>
  · apply infix_jsTrim (by decide) (by decide)
    simp only [String.data_append]
    iterate 13 refine infix_append_left_of _ ?_
    exact infix_of_suffix_append _ (by decide)

theorem infix_backout_code_line (crq : CRQ) (cf : List CustomField)
    (hh : headNotSpace ("Code: " ++ previousReleaseVersionText
      crq.backoutPlan.changes.code crq.backoutPlan.changes.codeVersion).data
      = true)
    (hl : lastNotSpace ("Code: " ++ previousReleaseVersionText
      crq.backoutPlan.changes.code crq.backoutPlan.changes.codeVersion).data
      = true) :
    ("Code: " ++ previousReleaseVersionText crq.backoutPlan.changes.code
      crq.backoutPlan.changes.codeVersion).data
      <:+: (backoutPlanText crq cf).data := by
  unfold backoutPlanText
  apply infix_jsTrim hh hl
  simp only [String.data_append]
  iterate 11 refine infix_append_left_of _ ?_
  exact infix_glue _ (by decide)

theorem infix_backout_ccm_line (crq : CRQ) (cf : List CustomField)
    (hh : headNotSpace ("CCM: " ++ previousReleaseVersionText
      crq.backoutPlan.changes.ccm crq.backoutPlan.changes.ccmVersion).data
      = true)
    (hl : lastNotSpace ("CCM: " ++ previousReleaseVersionText
      crq.backoutPlan.changes.ccm crq.backoutPlan.changes.ccmVersion).data
      = true) :
    ("CCM: " ++ previousReleaseVersionText crq.backoutPlan.changes.ccm
      crq.backoutPlan.changes.ccmVersion).data
      <:+: (backoutPlanText crq cf).data := by
  unfold backoutPlanText
  apply infix_jsTrim hh hl
  simp only [String.data_append]
  iterate 9 refine infix_append_left_of _ ?_
  exact infix_glue _ (by decide)

theorem infix_backout_db_line (crq : CRQ) (cf : List CustomField)
    (hh : headNotSpace ("DB: " ++ previousReleaseVersionText
      crq.backoutPlan.changes.db crq.backoutPlan.changes.dbVersion).data
      = true)
    (hl : lastNotSpace ("DB: " ++ previousReleaseVersionText
      crq.backoutPlan.changes.db crq.backoutPlan.changes.dbVersion).data
      = true) :
    ("DB: " ++ previousReleaseVersionText crq.backoutPlan.changes.db
      crq.backoutPlan.changes.dbVersion).data
      <:+: (backoutPlanText crq cf).data := by
  unfold backoutPlanText
  apply infix_jsTrim hh hl
  simp only [String.data_append]
  iterate 7 refine infix_append_left_of _ ?_
  exact infix_glue _ (by decide)

theorem infix_backout_akeyless_line (crq : CRQ) (cf : List CustomField)
    (hh : headNotSpace ("Akeyless: " ++ previousReleaseVersionText
      crq.backoutPlan.changes.akeyless
      crq.backoutPlan.changes.akeylessVersion).data = true)
    (hl : lastNotSpace ("Akeyless: " ++ previousReleaseVersionText
      crq.backoutPlan.changes.akeyless
      crq.backoutPlan.changes.akeylessVersion).data = true) :
    ("Akeyless: " ++ previousReleaseVersionText
      crq.backoutPlan.changes.akeyless
      crq.backoutPlan.changes.akeylessVersion).data
      <:+: (backoutPlanText crq cf).data := by
  unfold backoutPlanText
  apply infix_jsTrim hh hl
  simp only [String.data_append]
  iterate 5 refine infix_append_left_of _ ?_
  exact infix_glue _ (by decide)

theorem sections_trim_ne (crq : CRQ) (cf : List CustomField)
    (hs : jsTrim crq.summary ≠ "") :
    ∀ p ∈ generateCopySections (some crq) cf, jsTrim p.2 ≠ "" := by
  intro p hp
  unfold generateCopySections at hp
  rcases List.mem_cons.mp hp with rfl | hp
  · exact hs
  rcases List.mem_cons.mp hp with rfl | hp
  · exact descriptionText_trim_ne crq cf
  rcases List.mem_append.mp hp with hp | hp
  · rcases List.mem_append.mp hp with hp | hp
    · rw [if_pos (impactText_trim_ne crq cf)] at hp
      rcases List.mem_cons.mp hp with rfl | hp
      · exact impactText_trim_ne crq cf
      · simp at hp
    · rw [if_pos (riskText_trim_ne crq cf)] at hp
      rcases List.mem_cons.mp hp with rfl | hp
      · exact riskText_trim_ne crq cf
      · simp at hp
  · rcases List.mem_cons.mp hp with rfl | hp
    · exact implText_trim_ne crq cf
    rcases List.mem_cons.mp hp with rfl | hp
    · exact valText_trim_ne crq cf
    rcases List.mem_cons.mp hp with rfl | hp
    · exact backText_trim_ne crq cf
    · simp at hp

theorem testLine_in_description (crq : CRQ) (cf : List CustomField)
    {t : String}
    (ht : t ∈ ["Functional: " ++ yesNoAttached crq.testResults.functional,
               "Regression: " ++ yesNoAttached crq.testResults.regression,
               "Performance: " ++ yesNoAttached crq.testResults.performance]) :
    t.data <:+: (descriptionText crq cf).data := by
  have h1 := infix_of_mem_jsJoin "\n  " ht
  have h2 : ("Test results: \n  " ++ jsJoin "\n  "
      ["Functional: " ++ yesNoAttached crq.testResults.functional,
       "Regression: " ++ yesNoAttached crq.testResults.regression,
       "Performance: " ++ yesNoAttached crq.testResults.performance]).data
      <:+: (descriptionText crq cf).data := by
    unfold descriptionText
    apply infix_of_mem_filterJoin
    · simp
    · refine str_ne_empty_of_mem (c := 'T') ?_
      rw [String.data_append]
      exact List.mem_append_left _ (by decide)
  refine List.IsInfix.trans ?_ h2
  rw [String.data_append]
  exact infix_append_right_of _ h1

/-- Claim C3 (amended): provided the record's summary does not trim to
empty (which form validation guarantees), every section of the result
has a body that is non-empty after trimming — so the generator's
omission of blank sections is exact — and the included sections render
every absent optional scalar as "N/A" and every boolean as Yes/No
text. -/
theorem generateCopySections_nonblank_and_na (crq : CRQ)
    (cf : List CustomField) (hs : jsTrim crq.summary ≠ "") :
    (∀ p ∈ generateCopySections (some crq) cf, jsTrim p.2 ≠ "")
    ∧ (crq.deploymentDiffLink = none →
        sectionHas (generateCopySections (some crq) cf) "Description"
          "Link to Deployment Differences: \n  N/A")
    ∧ (crq.comments = none →
        sectionHas (generateCopySections (some crq) cf) "Description"
          "Comments: \n  N/A")
    ∧ sectionHas (generateCopySections (some crq) cf) "Description"
        ("Functional: " ++ yesNoAttached crq.testResults.functional)
    ∧ sectionHas (generateCopySections (some crq) cf) "Description"
        ("Regression: " ++ yesNoAttached crq.testResults.regression)
    ∧ sectionHas (generateCopySections (some crq) cf) "Description"
        ("Performance: " ++ yesNoAttached crq.testResults.performance)
    ∧ (crq.impactAnalysis.bind (fun ia => ia.burstAreaOverall) = none →
        sectionHas (generateCopySections (some crq) cf)
          "Impact Analysis & Communication" "Burst Area - Overall: N/A")
    ∧ (crq.impactAnalysis.bind (fun ia => ia.burstAreaTender) = none →
        sectionHas (generateCopySections (some crq) cf)
          "Impact Analysis & Communication" "Burst Area - Tender: N/A")
    ∧ (crq.impactAnalysis.bind (fun ia => ia.possibleImpactAreas) = none →
        sectionHas (generateCopySections (some crq) cf)
          "Impact Analysis & Communication" "Possible impact areas: N/A")
    ∧ (crq.impactAnalysis.bind (fun ia => ia.businessUserImpact) = none →
        sectionHas (generateCopySections (some crq) cf)
          "Impact Analysis & Communication" "Business/User Impact: N/A")
    ∧ (crq.impactAnalysis.bind (fun ia => ia.impactedTeams) = none →
        sectionHas (generateCopySections (some crq) cf)
          "Impact Analysis & Communication"
          "Teams impacted by this change: N/A")
    ∧ (crq.impactAnalysis.bind (fun ia => ia.instructionsSent) = none →
        sectionHas (generateCopySections (some crq) cf)
          "Impact Analysis & Communication"
          "Instructions to upstream/downstream sent out: N/A")
    ∧ (crq.impactAnalysis.bind (fun ia => ia.teamsToNotify) = none →
        sectionHas (generateCopySections (some crq) cf)
          "Impact Analysis & Communication" "Teams to be notified: N/A")
    ∧ (crq.riskAssessment.bind (fun ra => ra.risk) = none →
        sectionHas (generateCopySections (some crq) cf) "Risk Assessment"
          "Risk: N/A")
    ∧ (crq.riskAssessment.bind (fun ra => ra.mitigationPlan) = none →
        sectionHas (generateCopySections (some crq) cf) "Risk Assessment"
          "Mitigation Plan: N/A")
    ∧ (∀ app ∈ crq.implementationPlan.applications,
        (app.changes.code = false →
          sectionHas (generateCopySections (some crq) cf)
            "Implementation plan" "Code: No")
        ∧ (app.changes.code = true → app.changes.codeVersion = none →
          sectionHas (generateCopySections (some crq) cf)
            "Implementation plan" "Code: Yes - Release Version: N/A")
        ∧ (app.changes.ccm = false →
          sectionHas (generateCopySections (some crq) cf)
            "Implementation plan" "CCM: No")
        ∧ (app.changes.ccm = true → app.changes.ccmVersion = none →
          sectionHas (generateCopySections (some crq) cf)
            "Implementation plan" "CCM: Yes - Release Version: N/A")
        ∧ (app.changes.db = false →
          sectionHas (generateCopySections (some crq) cf)
            "Implementation plan" "DB: No")
        ∧ (app.changes.db = true → app.changes.dbVersion = none →
          sectionHas (generateCopySections (some crq) cf)
            "Implementation plan" "DB: Yes - Release Version: N/A")
        ∧ (app.changes.akeyless = false →
          sectionHas (generateCopySections (some crq) cf)
            "Implementation plan" "Akeyless: No")
        ∧ (app.changes.akeyless = true →
            app.changes.akeylessVersion = none →
          sectionHas (generateCopySections (some crq) cf)
            "Implementation plan" "Akeyless: Yes - Release Version: N/A"))
    ∧ (crq.validationPlan.duration = none →
        sectionHas (generateCopySections (some crq) cf) "Validation plan"
          "Validation Time duration: N/A")
    ∧ (crq.validationPlan.whenToRollback = none →
        sectionHas (generateCopySections (some crq) cf) "Validation plan"
          "When to Rollback: N/A")
    ∧ (∀ mc ∈ crq.validationPlan.monitoredChanges,
        (mc.mms = none →
          sectionHas (generateCopySections (some crq) cf) "Validation plan"
            "MMS: N/A")
        ∧ (mc.splunk = none →
          sectionHas (generateCopySections (some crq) cf) "Validation plan"
            "Splunk/Openobserve: N/A"))
    ∧ sectionHas (generateCopySections (some crq) cf) "Backout plan"
        ("Is Backout plan tested?: " ++
          (if crq.backoutPlan.isTested then "Yes" else "No"))
    ∧ (crq.backoutPlan.changes.code = false →
        sectionHas (generateCopySections (some crq) cf) "Backout plan"
          "Code: No")
    ∧ (crq.backoutPlan.changes.code = true →
        crq.backoutPlan.changes.codeVersion = none →
        sectionHas (generateCopySections (some crq) cf) "Backout plan"
          "Code: Yes - Previous Release Version: N/A")
    ∧ (crq.backoutPlan.changes.ccm = false →
        sectionHas (generateCopySections (some crq) cf) "Backout plan"
          "CCM: No")
    ∧ (crq.backoutPlan.changes.ccm = true →
        crq.backoutPlan.changes.ccmVersion = none →
        sectionHas (generateCopySections (some crq) cf) "Backout plan"
          "CCM: Yes - Previous Release Version: N/A")
    ∧ (crq.backoutPlan.changes.db = false →
        sectionHas (generateCopySections (some crq) cf) "Backout plan"
          "DB: No")
    ∧ (crq.backoutPlan.changes.db = true →
        crq.backoutPlan.changes.dbVersion = none →
        sectionHas (generateCopySections (some crq) cf) "Backout plan"
          "DB: Yes - Previous Release Version: N/A")
    ∧ (crq.backoutPlan.changes.akeyless = false →
        sectionHas (generateCopySections (some crq) cf) "Backout plan"
          "Akeyless: No")
    ∧ (crq.backoutPlan.changes.akeyless = true →
        crq.backoutPlan.changes.akeylessVersion = none →
        sectionHas (generateCopySections (some crq) cf) "Backout plan"
          "Akeyless: Yes - Previous Release Version: N/A")
    ∧ (∀ mc ∈ crq.backoutPlan.monitoredChanges,
        (mc.mms = none →
          sectionHas (generateCopySections (some crq) cf) "Backout plan"
            "MMS: N/A")
        ∧ (mc.splunk = none →
          sectionHas (generateCopySections (some crq) cf) "Backout plan"
            "Splunk/Openobserve: N/A")) := by
  refine ⟨sections_trim_ne crq cf hs, ?_, ?_, ?_, ?_, ?_, ?_, ?_, ?_, ?_,
    ?_, ?_, ?_, ?_, ?_, ?_, ?_, ?_, ?_, ?_, ?_, ?_, ?_, ?_, ?_, ?_, ?_,
    ?_, ?_⟩
  · intro h
    refine ⟨descriptionText crq cf, description_mem crq cf, ?_⟩
    rw [show ("Link to Deployment Differences: \n  N/A" : String)
        = "Link to Deployment Differences: \n  " ++
          jsOrStr crq.deploymentDiffLink "N/A" from by rw [h]; decide]
    unfold descriptionText
    apply infix_of_mem_filterJoin
    · simp
    · rw [h]; decide
  · intro h
    refine ⟨descriptionText crq cf, description_mem crq cf, ?_⟩
    rw [show ("Comments: \n  N/A" : String)
        = "Comments: \n  " ++ jsOrStr crq.comments "N/A" from by
          rw [h]; decide]
    unfold descriptionText
    apply infix_of_mem_filterJoin
    · simp
    · rw [h]; decide
  · exact ⟨descriptionText crq cf, description_mem crq cf,
      testLine_in_description crq cf (by simp)⟩
  · exact ⟨descriptionText crq cf, description_mem crq cf,
      testLine_in_description crq cf (by simp)⟩
  · exact ⟨descriptionText crq cf, description_mem crq cf,
      testLine_in_description crq cf (by simp)⟩
  · intro h
    refine ⟨impactCommunicationText crq cf, impact_mem crq cf, ?_⟩
    rw [show ("Burst Area - Overall: N/A" : String)
        = "Burst Area - Overall: " ++ jsOrStr
          (crq.impactAnalysis.bind (fun ia => ia.burstAreaOverall)) "N/A"
        from by rw [h]; decide]
    unfold impactCommunicationText
    apply infix_of_mem_filterJoin
    · simp
    · rw [h]; decide
  · intro h
    refine ⟨impactCommunicationText crq cf, impact_mem crq cf, ?_⟩
    rw [show ("Burst Area - Tender: N/A" : String)
        = "Burst Area - Tender: " ++ jsOrStr
          (crq.impactAnalysis.bind (fun ia => ia.burstAreaTender)) "N/A"
        from by rw [h]; decide]
    unfold impactCommunicationText
    apply infix_of_mem_filterJoin
    · simp
    · rw [h]; decide
  · intro h
    refine ⟨impactCommunicationText crq cf, impact_mem crq cf, ?_⟩
    rw [show ("Possible impact areas: N/A" : String)
        = "Possible impact areas: " ++ jsOrStr
          (crq.impactAnalysis.bind (fun ia => ia.possibleImpactAreas))
          "N/A" from by rw [h]; decide]
    unfold impactCommunicationText
    apply infix_of_mem_filterJoin
    · simp
    · rw [h]; decide
  · intro h
    refine ⟨impactCommunicationText crq cf, impact_mem crq cf, ?_⟩
    rw [show ("Business/User Impact: N/A" : String)
        = "Business/User Impact: " ++ jsOrStr
          (crq.impactAnalysis.bind (fun ia => ia.businessUserImpact)) "N/A"
        from by rw [h]; decide]
    unfold impactCommunicationText
    apply infix_of_mem_filterJoin
    · simp
    · rw [h]; decide
  · intro h
    refine ⟨impactCommunicationText crq cf, impact_mem crq cf, ?_⟩
    rw [show ("Teams impacted by this change: N/A" : String)
        = "Teams impacted by this change: " ++ jsOrStr
          (crq.impactAnalysis.bind (fun ia => ia.impactedTeams)) "N/A"
        from by rw [h]; decide]
    unfold impactCommunicationText
    apply infix_of_mem_filterJoin
    · simp
    · rw [h]; decide
  · intro h
    refine ⟨impactCommunicationText crq cf, impact_mem crq cf, ?_⟩
    rw [show ("Instructions to upstream/downstream sent out: N/A" : String)
        = "Instructions to upstream/downstream sent out: " ++ jsOrStr
          (crq.impactAnalysis.bind (fun ia => ia.instructionsSent)) "N/A"
        from by rw [h]; decide]
    unfold impactCommunicationText
    apply infix_of_mem_filterJoin
    · simp
    · rw [h]; decide
  · intro h
    refine ⟨impactCommunicationText crq cf, impact_mem crq cf, ?_⟩
    rw [show ("Teams to be notified: N/A" : String)
        = "Teams to be notified: " ++ jsOrStr
          (crq.impactAnalysis.bind (fun ia => ia.teamsToNotify)) "N/A"
        from by rw [h]; decide]
    unfold impactCommunicationText
    apply infix_of_mem_filterJoin
    · simp
    · rw [h]; decide
  · intro h
    refine ⟨riskAssessmentText crq cf, risk_mem crq cf, ?_⟩
    rw [show ("Risk: N/A" : String)
        = "Risk: " ++ jsOrStr
          ((crq.riskAssessment.bind (fun ra => ra.risk)).map Risk.toText)
          "N/A" from by rw [h]; decide]
    unfold riskAssessmentText
    apply infix_of_mem_filterJoin
    · simp
    · rw [h]; decide
  · intro h
    refine ⟨riskAssessmentText crq cf, risk_mem crq cf, ?_⟩
    rw [show ("Mitigation Plan: N/A" : String)
        = "Mitigation Plan: " ++ jsOrStr
          (crq.riskAssessment.bind (fun ra => ra.mitigationPlan)) "N/A"
        from by rw [h]; decide]
    unfold riskAssessmentText
    apply infix_of_mem_filterJoin
    · simp
    · rw [h]; decide
  · intro app happ
    refine ⟨?_, ?_, ?_, ?_, ?_, ?_, ?_, ?_⟩
    · intro hc
      refine ⟨implementationPlanText crq cf, implementation_mem crq cf, ?_⟩
      rw [show ("Code: No" : String) = "Code: " ++ releaseVersionText
          app.changes.code app.changes.codeVersion from by rw [hc]; rfl]
      exact infix_implementationPlanText crq cf happ (infix_code_line app)
        (by rw [hc]; rfl) (by rw [hc]; rfl)
    · intro hc hv
      refine ⟨implementationPlanText crq cf, implementation_mem crq cf, ?_⟩
      rw [show ("Code: Yes - Release Version: N/A" : String)
          = "Code: " ++ releaseVersionText app.changes.code
            app.changes.codeVersion from by rw [hc, hv]; decide]
      exact infix_implementationPlanText crq cf happ (infix_code_line app)
        (by rw [hc, hv]; decide) (by rw [hc, hv]; decide)
    · intro hc
      refine ⟨implementationPlanText crq cf, implementation_mem crq cf, ?_⟩
      rw [show ("CCM: No" : String) = "CCM: " ++ releaseVersionText
          app.changes.ccm app.changes.ccmVersion from by rw [hc]; rfl]
      exact infix_implementationPlanText crq cf happ (infix_ccm_line app)
        (by rw [hc]; rfl) (by rw [hc]; rfl)
    · intro hc hv
      refine ⟨implementationPlanText crq cf, implementation_mem crq cf, ?_⟩
      rw [show ("CCM: Yes - Release Version: N/A" : String)
          = "CCM: " ++ releaseVersionText app.changes.ccm
            app.changes.ccmVersion from by rw [hc, hv]; decide]
      exact infix_implementationPlanText crq cf happ (infix_ccm_line app)
        (by rw [hc, hv]; decide) (by rw [hc, hv]; decide)
    · intro hc
      refine ⟨implementationPlanText crq cf, implementation_mem crq cf, ?_⟩
      rw [show ("DB: No" : String) = "DB: " ++ releaseVersionText
          app.changes.db app.changes.dbVersion from by rw [hc]; rfl]
      exact infix_implementationPlanText crq cf happ (infix_db_line app)
        (by rw [hc]; rfl) (by rw [hc]; rfl)
    · intro hc hv
      refine ⟨implementationPlanText crq cf, implementation_mem crq cf, ?_⟩
      rw [show ("DB: Yes - Release Version: N/A" : String)
          = "DB: " ++ releaseVersionText app.changes.db
            app.changes.dbVersion from by rw [hc, hv]; decide]
      exact infix_implementationPlanText crq cf happ (infix_db_line app)
        (by rw [hc, hv]; decide) (by rw [hc, hv]; decide)
    · intro hc
      refine ⟨implementationPlanText crq cf, implementation_mem crq cf, ?_⟩
      rw [show ("Akeyless: No" : String) = "Akeyless: " ++
          releaseVersionText app.changes.akeyless
            app.changes.akeylessVersion from by rw [hc]; rfl]
      exact infix_implementationPlanText crq cf happ
        (infix_akeyless_line app) (by rw [hc]; rfl) (by rw [hc]; rfl)
    · intro hc hv
      refine ⟨implementationPlanText crq cf, implementation_mem crq cf, ?_⟩
      rw [show ("Akeyless: Yes - Release Version: N/A" : String)
          = "Akeyless: " ++ releaseVersionText app.changes.akeyless
            app.changes.akeylessVersion from by rw [hc, hv]; decide]
      exact infix_implementationPlanText crq cf happ
        (infix_akeyless_line app) (by rw [hc, hv]; decide)
        (by rw [hc, hv]; decide)
  · intro h
    exact ⟨validationPlanText crq cf, validation_mem crq cf,
      duration_line_in_valText crq cf h⟩
  · intro h
    exact ⟨validationPlanText crq cf, validation_mem crq cf,
      rollback_line_in_valText crq cf h⟩
  · intro mc hmc
    constructor
    · intro hm
      refine ⟨validationPlanText crq cf, validation_mem crq cf, ?_⟩
      rw [show ("MMS: N/A" : String) = "MMS: " ++ jsOrStr mc.mms "N/A"
          from by rw [hm]; decide]
      exact infix_validationPlanText_mc crq cf hmc (infix_mms_line mc)
        (by rw [hm]; decide) (by rw [hm]; decide)
    · intro hm
      refine ⟨validationPlanText crq cf, validation_mem crq cf, ?_⟩
      rw [show ("Splunk/Openobserve: N/A" : String)
          = "Splunk/Openobserve: " ++ jsOrStr mc.splunk "N/A" from by
            rw [hm]; decide]
      exact infix_validationPlanText_mc crq cf hmc (infix_splunk_line mc)
        (by rw [hm]; decide) (by rw [hm]; decide)
  · exact ⟨backoutPlanText crq cf, backout_mem crq cf,
      isTested_line_in_backText crq cf⟩
  · intro hc
    refine ⟨backoutPlanText crq cf, backout_mem crq cf, ?_⟩
    rw [show ("Code: No" : String) = "Code: " ++
        previousReleaseVersionText crq.backoutPlan.changes.code
          crq.backoutPlan.changes.codeVersion from by rw [hc]; rfl]
    exact infix_backout_code_line crq cf (by rw [hc]; rfl)
      (by rw [hc]; rfl)
  · intro hc hv
    refine ⟨backoutPlanText crq cf, backout_mem crq cf, ?_⟩
    rw [show ("Code: Yes - Previous Release Version: N/A" : String)
        = "Code: " ++ previousReleaseVersionText
          crq.backoutPlan.changes.code crq.backoutPlan.changes.codeVersion
        from by rw [hc, hv]; decide]
    exact infix_backout_code_line crq cf (by rw [hc, hv]; decide)
      (by rw [hc, hv]; decide)
  · intro hc
    refine ⟨backoutPlanText crq cf, backout_mem crq cf, ?_⟩
    rw [show ("CCM: No" : String) = "CCM: " ++
        previousReleaseVersionText crq.backoutPlan.changes.ccm
          crq.backoutPlan.changes.ccmVersion from by rw [hc]; rfl]
    exact infix_backout_ccm_line crq cf (by rw [hc]; rfl)
      (by rw [hc]; rfl)
  · intro hc hv
    refine ⟨backoutPlanText crq cf, backout_mem crq cf, ?_⟩
    rw [show ("CCM: Yes - Previous Release Version: N/A" : String)
        = "CCM: " ++ previousReleaseVersionText
          crq.backoutPlan.changes.ccm crq.backoutPlan.changes.ccmVersion
        from by rw [hc, hv]; decide]
    exact infix_backout_ccm_line crq cf (by rw [hc, hv]; decide)
      (by rw [hc, hv]; decide)
  · intro hc
    refine ⟨backoutPlanText crq cf, backout_mem crq cf, ?_⟩
    rw [show ("DB: No" : String) = "DB: " ++
        previousReleaseVersionText crq.backoutPlan.changes.db
          crq.backoutPlan.changes.dbVersion from by rw [hc]; rfl]
    exact infix_backout_db_line crq cf (by rw [hc]; rfl)
      (by rw [hc]; rfl)
  · intro hc hv
    refine ⟨backoutPlanText crq cf, backout_mem crq cf, ?_⟩
    rw [show ("DB: Yes - Previous Release Version: N/A" : String)
        = "DB: " ++ previousReleaseVersionText
          crq.backoutPlan.changes.db crq.backoutPlan.changes.dbVersion
        from by rw [hc, hv]; decide]
    exact infix_backout_db_line crq cf (by rw [hc, hv]; decide)
      (by rw [hc, hv]; decide)
  · intro hc
    refine ⟨backoutPlanText crq cf, backout_mem crq cf, ?_⟩
    rw [show ("Akeyless: No" : String) = "Akeyless: " ++
        previousReleaseVersionText crq.backoutPlan.changes.akeyless
          crq.backoutPlan.changes.akeylessVersion from by rw [hc]; rfl]
    exact infix_backout_akeyless_line crq cf (by rw [hc]; rfl)
      (by rw [hc]; rfl)
  · intro hc hv
    refine ⟨backoutPlanText crq cf, backout_mem crq cf, ?_⟩
    rw [show ("Akeyless: Yes - Previous Release Version: N/A" : String)
        = "Akeyless: " ++ previousReleaseVersionText
          crq.backoutPlan.changes.akeyless
          crq.backoutPlan.changes.akeylessVersion from by
            rw [hc, hv]; decide]
    exact infix_backout_akeyless_line crq cf (by rw [hc, hv]; decide)
      (by rw [hc, hv]; decide)
  · intro mc hmc
    constructor
    · intro hm
      refine ⟨backoutPlanText crq cf, backout_mem crq cf, ?_⟩
      rw [show ("MMS: N/A" : String) = "MMS: " ++ jsOrStr mc.mms "N/A"
          from by rw [hm]; decide]
      exact infix_backoutPlanText_mc crq cf hmc (infix_mms_line mc)
        (by rw [hm]; decide) (by rw [hm]; decide)
    · intro hm
      refine ⟨backoutPlanText crq cf, backout_mem crq cf, ?_⟩
      rw [show ("Splunk/Openobserve: N/A" : String)
          = "Splunk/Openobserve: " ++ jsOrStr mc.splunk "N/A" from by
            rw [hm]; decide]
      exact infix_backoutPlanText_mc crq cf hmc (infix_splunk_line mc)
        (by rw [hm]; decide) (by rw [hm]; decide)

/-- Witness for C3 (amended) at the demo record. -/
theorem generateCopySections_nonblank_and_na_witness :
    sectionHas (generateCopySections (some baseCrq) []) "Backout plan"
      ("Is Backout plan tested?: " ++
        (if baseCrq.backoutPlan.isTested then "Yes" else "No")) := by
  have h := generateCopySections_nonblank_and_na baseCrq [] (by decide)
  exact h.2.2.2.2.2.2.2.2.2.2.2.2.2.2.2.2.2.2.2.1

/-- Counterexample for C3 as stated: a record whose summary is blank
still yields a "Summary" section whose body trims to empty, so the
mapping does not omit every blank-bodied section. -/
theorem blankSummary_section_included :
    ("Summary", "") ∈ generateCopySections (some blankSummaryCrq) []
    ∧ jsTrim "" = "" :=
  ⟨by decide, rfl⟩

/-- Claim C6 (amended to the extended variant): a mutation through the
useLocalStorage-backed store never propagates a storage-write failure,
the failure is logged, and the in-memory list is the one a successful
write would have produced. -/
theorem extendedPersistFailure_isolated (crqs : List CRQ)
    (editingCrq : Option CRQ) (data : FormValues) (fid fsid id : String)
    (st : Status) (rev : Option String) :
    (∀ writeFails, ∃ r,
        handleSaveOp writeFails crqs editingCrq data fid fsid = Except.ok r)
    ∧ (∀ writeFails, ∃ r,
        updateCrqStatusOp writeFails crqs id st rev = Except.ok r)
    ∧ (∀ memT logsT memF logsF,
        handleSaveOp true crqs editingCrq data fid fsid
          = Except.ok (memT, logsT) →
        handleSaveOp false crqs editingCrq data fid fsid
          = Except.ok (memF, logsF) →
        memT = memF ∧ logsT ≠ [])
    ∧ (∀ memT logsT memF logsF,
        updateCrqStatusOp true crqs id st rev = Except.ok (memT, logsT) →
        updateCrqStatusOp false crqs id st rev = Except.ok (memF, logsF) →
        memT = memF ∧ logsT ≠ []) := by
  refine ⟨fun writeFails => ⟨_, rfl⟩, fun writeFails => ⟨_, rfl⟩, ?_, ?_⟩
  · intro memT logsT memF logsF hT hF
    have hT' : ((handleSave crqs editingCrq data fid fsid).1,
        persistStore true "crq_list_v3") = (memT, logsT) := by
      simpa [handleSaveOp] using hT
    have hF' : ((handleSave crqs editingCrq data fid fsid).1,
        persistStore false "crq_list_v3") = (memF, logsF) := by
      simpa [handleSaveOp] using hF
    rw [Prod.mk.injEq] at hT' hF'
    refine ⟨hT'.1.symm.trans hF'.1, ?_⟩
    rw [← hT'.2]
    simp [persistStore, setItemResult]
  · intro memT logsT memF logsF hT hF
    have hT' : (updateCrqStatus crqs id st rev,
        persistStore true "crq_list_v3") = (memT, logsT) := by
      simpa [updateCrqStatusOp] using hT
    have hF' : (updateCrqStatus crqs id st rev,
        persistStore false "crq_list_v3") = (memF, logsF) := by
      simpa [updateCrqStatusOp] using hF
    rw [Prod.mk.injEq] at hT' hF'
    refine ⟨hT'.1.symm.trans hF'.1, ?_⟩
    rw [← hT'.2]
    simp [persistStore, setItemResult]

/-- Witness for C6 at a concrete failing save. -/
theorem extendedPersistFailure_isolated_witness :
    ∃ r, handleSaveOp true [] none demoFormValues "f" "g" = Except.ok r := by
  have h := extendedPersistFailure_isolated [] none demoFormValues "f" "g"
    "id-a" .Approved none
  exact h.1 true

/-- Counterexample for C6 as stated: in the early variant (page.tsx) the
inline localStorage.setItem of a status transition is not wrapped in
try/catch, so a storage-write failure escapes to the caller. -/
theorem earlyPersistFailure_escapes :
    updateCrqStatusOpEarly true [] "id-a" .Approved none
      = Except.error "QuotaExceededError" := rfl

end Crq
